import Mathlib

/-!
Verification of the generated-code repair pipeline in
src/code_generation/manim_code_generator.py (class ManimCodeGenerator).

Modelling conventions of the shallow embedding:
* Python strings are lists of characters (Chars); inputs are ASCII.
* Python floats are exact rationals (Rat); the inputs exercised carry at
  most two decimal places, where binary floating point is exact.
* Python regular expressions are embedded as bespoke matchers that follow
  the source patterns literally (leftmost match, greedy/lazy quantifier
  order reproduced by ordered enumeration).
* Python compile() (the full CPython parser, external to this embedding)
  is modelled as an oracle parameter of type Chars -> CompileOutcome.
* float() raising ValueError is modelled with Except PyErr.
-/

namespace Datathon

abbrev Chars := List Char

def cs (s : String) : Chars := s.data

/-- Python str whitespace set (space, tab, newline, CR, VT, FF). -/
def isPyWs (c : Char) : Bool :=
  c = ' ' || c = '\t' || c = '\n' || c = '\r' || c = '\x0b' || c = '\x0c'

/-- Regex word character, ASCII fragment of Python re \w. -/
def isWordChar (c : Char) : Bool := c.isAlphanum || c = '_'

def runLen (p : Char → Bool) (s : Chars) : Nat := (s.takeWhile p).length

def wsRunLen (s : Chars) : Nat := runLen isPyWs s

def digitRunLen (s : Chars) : Nat := runLen Char.isDigit s

def wordRunLen (s : Chars) : Nat := runLen isWordChar s

/-- Python str.lstrip(). -/
def lstripL (s : Chars) : Chars := s.dropWhile isPyWs

/-- Python str.rstrip(). -/
def rstripL (s : Chars) : Chars := (s.reverse.dropWhile isPyWs).reverse

/-- Python str.strip(). -/
def stripL (s : Chars) : Chars := rstripL (lstripL s)

/-- Python str.startswith. -/
def pyStartswith (s pre : Chars) : Bool := pre.isPrefixOf s

/-- Python str.endswith. -/
def pyEndswith (s suf : Chars) : Bool := suf.isSuffixOf s

/-- Python substring containment: pyIn sub s models sub in s. -/
def pyIn (sub : Chars) : Chars → Bool
  | [] => sub.isEmpty
  | s@(_ :: t) => sub.isPrefixOf s || pyIn sub t

/-- Python str.find: index of the first occurrence, none when absent. -/
def pyFind (s sub : Chars) : Option Nat :=
  match s with
  | [] => if sub.isEmpty then some 0 else none
  | s@(_ :: t) =>
    if sub.isPrefixOf s then some 0 else (pyFind t sub).map (· + 1)

/-- Python str.count for a non-empty pattern: non-overlapping occurrences,
scanning left to right.  The fuel argument is bounded by the string length;
each step consumes at least one character. -/
def pyCountGo (sub : Chars) : Chars → Nat → Nat
  | _, 0 => 0
  | [], _ => 0
  | s@(_ :: t), fuel + 1 =>
    if sub.isPrefixOf s then 1 + pyCountGo sub (s.drop sub.length) fuel
    else pyCountGo sub t fuel

def pyCount (s sub : Chars) : Nat :=
  if sub.isEmpty then s.length + 1 else pyCountGo sub s s.length

/-- Python str.replace: all non-overlapping occurrences, left to right. -/
def replaceAllGo (old new : Chars) : Chars → Nat → Chars
  | s, 0 => s
  | [], _ => []
  | s@(c :: t), fuel + 1 =>
    if old.isPrefixOf s then new ++ replaceAllGo old new (s.drop old.length) fuel
    else c :: replaceAllGo old new t fuel

def replaceAll (s old new : Chars) : Chars :=
  if old.isEmpty then s else replaceAllGo old new s s.length

/-- Python str.split on the newline character. -/
def splitNl : Chars → List Chars
  | [] => [[]]
  | c :: rest =>
    if c = '\n' then [] :: splitNl rest
    else
      match splitNl rest with
      | [] => [[c]]
      | h :: t => (c :: h) :: t

/-- Python str.join with the newline character. -/
def joinNl : List Chars → Chars
  | [] => []
  | l :: ls =>
    match ls with
    | [] => l
    | _ :: _ => l ++ '\n' :: joinNl ls

/-- Python str.expandtabs(4): columns advance to the next multiple of 4 at a
tab and reset at a line break. -/
def expandTabs4Go : Chars → Nat → Chars
  | [], _ => []
  | c :: t, col =>
    if c = '\t' then
      let k := 4 - col % 4
      List.replicate k ' ' ++ expandTabs4Go t (col + k)
    else if c = '\n' || c = '\r' then c :: expandTabs4Go t 0
    else c :: expandTabs4Go t (col + 1)

def expandTabs4 (s : Chars) : Chars := expandTabs4Go s 0

def charsToNat (s : Chars) : Nat :=
  s.foldl (fun n c => n * 10 + (c.toNat - 48)) 0

def natToChars (n : Nat) : Chars := (toString n).data

/-- Python float() restricted to the character class producible by the
source's numeric capture groups (sign, digits, at most one dot); any other
shape raises ValueError in Python and yields none here. -/
def pyFloat (s : Chars) : Option Rat :=
  let sgn : Rat := match s with
    | '-' :: _ => -1
    | _ => 1
  let t : Chars := match s with
    | '-' :: r => r
    | '+' :: r => r
    | _ => s
  let d1 := digitRunLen t
  let t1 := t.drop d1
  match t1 with
  | [] =>
    if d1 = 0 then none
    else some (sgn * (charsToNat (t.take d1) : Nat))
  | '.' :: t2 =>
    let d2 := digitRunLen t2
    if ¬ (t2.drop d2).isEmpty then none
    else if d1 = 0 ∧ d2 = 0 then none
    else some (sgn * ((charsToNat (t.take d1) : Nat) +
      ((charsToNat (t2.take d2) : Nat) : Rat) / ((10 : Rat) ^ d2)))
  | _ => none

/-- Rounding used by Python float formatting (ties to even).  Exact on the
rationals exercised here; binary-float ulp effects are out of scope. -/
def roundHalfEven (q : Rat) : Int :=
  let f := q.floor
  let r := q - (f : Rat)
  if r < 1 / 2 then f
  else if r > 1 / 2 then f + 1
  else if f % 2 = 0 then f else f + 1

/-- Python format spec .2f on the exact rational model. -/
def fmt2 (x : Rat) : Chars :=
  let n := roundHalfEven (x * 100)
  let sign : Chars := if n < 0 then cs "-" else []
  let m := n.natAbs
  sign ++ natToChars (m / 100) ++ cs "." ++
    (if m % 100 < 10 then cs "0" else []) ++ natToChars (m % 100)

/-- Leftmost regex search: try the pattern at every start position. -/
def searchGo {β : Type} (tryAt : Chars → Option β) : Chars → Option β
  | [] => tryAt []
  | s@(_ :: t) =>
    match tryAt s with
    | some r => some r
    | none => searchGo tryAt t

/-- Python re.sub: non-overlapping leftmost matches replaced left to right;
tryAt returns (match length, replacement text).  All source patterns match
at least one character, so fuel equal to the length suffices. -/
def subAllGo (tryAt : Chars → Option (Nat × Chars)) : Chars → Nat → Chars
  | s, 0 => s
  | [], _ => []
  | s@(c :: t), fuel + 1 =>
    match tryAt s with
    | some (len, repl) =>
      if len = 0 then c :: subAllGo tryAt t fuel
      else repl ++ subAllGo tryAt (s.drop len) fuel
    | none => c :: subAllGo tryAt t fuel

def subAllG (tryAt : Chars → Option (Nat × Chars)) (s : Chars) : Chars :=
  subAllGo tryAt s s.length

/-- Enumeration n, n-1, ..., 0 (greedy quantifier backtracking order). -/
def descFrom (n : Nat) : List Nat := (List.range (n + 1)).map (fun k => n - k)

/-- Enumeration n, n-1, ..., 1. -/
def descFrom1 (n : Nat) : List Nat := (List.range n).map (fun k => n - k)

/-- Enumeration 1, 2, ..., n (lazy quantifier order). -/
def ascTo (n : Nat) : List Nat := (List.range n).map (· + 1)

/-- Matcher for the source pattern (word).set_font_size(non-paren-run): the
group run is delimited by the first closing parenthesis. -/
def sfsTryAt (s : Chars) : Option (Chars × Chars) :=
  let w := wordRunLen s
  if w = 0 then none
  else
    let r := s.drop w
    if pyStartswith r (cs ".set_font_size(") then
      let r1 := r.drop 15
      let a := runLen (fun c => c != ')') r1
      if a = 0 then none
      else
        match r1.drop a with
        | ')' :: _ => some (s.take w, r1.take a)
        | _ => none
    else none

def setFontSizeSearch (line : Chars) : Option (Chars × Chars) := searchGo sfsTryAt line

/-- Tail of the deprecated-constant pattern: optional whitespace, an
asterisk, optional whitespace, then the literal DEFAULT_FONT_SIZE. -/
def dfsTail (s : Chars) : Option Nat :=
  let w1 := wsRunLen s
  match s.drop w1 with
  | '*' :: r =>
    let w2 := wsRunLen r
    if pyStartswith (r.drop w2) (cs "DEFAULT_FONT_SIZE") then some (w1 + 1 + w2 + 17)
    else none
  | _ => none

/-- One match attempt of the source substitution replacing a numeric
multiplier of DEFAULT_FONT_SIZE: the group is digits, an optional dot, more
digits (all possibly empty), enumerated in greedy backtracking order; the
returned replacement is the group followed by the literal times-24 text. -/
def dfsTryAt (s : Chars) : Option (Nat × Chars) :=
  (descFrom (digitRunLen s)).findSome? (fun a =>
    let p := s.drop a
    let withDot : Option (Nat × Chars) :=
      match p with
      | '.' :: q =>
        (descFrom (digitRunLen q)).findSome? (fun b =>
          (dfsTail (q.drop b)).map (fun tl =>
            (a + 1 + b + tl, s.take a ++ '.' :: q.take b ++ cs " * 24")))
      | _ => none
    match withDot with
    | some r => some r
    | none =>
      (descFrom (digitRunLen p)).findSome? (fun b =>
        (dfsTail (p.drop b)).map (fun tl =>
          (a + b + tl, s.take (a + b) ++ cs " * 24"))))

def dfsSubAll (line : Chars) : Chars := subAllG dfsTryAt line

/-- Tail of the float identity-comparison pattern: whitespace, the literal
is, whitespace, not, whitespace, None. -/
def innTail (s : Chars) : Option Nat :=
  let w1 := wsRunLen s
  if w1 = 0 then none
  else
    let r := s.drop w1
    if pyStartswith r (cs "is") then
      let r2 := r.drop 2
      let w2 := wsRunLen r2
      if w2 = 0 then none
      else
        let r3 := r2.drop w2
        if pyStartswith r3 (cs "not") then
          let r4 := r3.drop 3
          let w3 := wsRunLen r4
          if w3 = 0 then none
          else if pyStartswith (r4.drop w3) (cs "None") then
            some (w1 + 2 + w2 + 3 + w3 + 4)
          else none
        else none
    else none

/-- One match attempt of the substitution rewriting a numeric literal
compared with is-not-None: group is digits (at least one), optional dot,
more digits; replacement is the group followed by a not-equal comparison. -/
def innTryAt (s : Chars) : Option (Nat × Chars) :=
  let d1max := digitRunLen s
  if d1max = 0 then none
  else
    (descFrom1 d1max).findSome? (fun a =>
      let p := s.drop a
      let withDot : Option (Nat × Chars) :=
        match p with
        | '.' :: q =>
          (descFrom (digitRunLen q)).findSome? (fun b =>
            (innTail (q.drop b)).map (fun tl =>
              (a + 1 + b + tl, s.take (a + 1 + b) ++ cs " != None")))
        | _ => none
      match withDot with
      | some r => some r
      | none =>
        (descFrom (digitRunLen p)).findSome? (fun b =>
          (innTail (p.drop b)).map (fun tl =>
            (a + b + tl, s.take (a + b) ++ cs " != None"))))

def innSubAll (line : Chars) : Chars := subAllG innTryAt line

/-- Matcher for the font-size keyword pattern with a numeric group: the
literal font_size, optional whitespace, an equals sign, optional whitespace,
then at least one digit. -/
def fsNumTryAt (s : Chars) : Option Nat :=
  if pyStartswith s (cs "font_size") then
    let r := s.drop 9
    let w1 := wsRunLen r
    match r.drop w1 with
    | '=' :: r2 =>
      let w2 := wsRunLen r2
      let r3 := r2.drop w2
      let d := digitRunLen r3
      if d = 0 then none else some (charsToNat (r3.take d))
    | _ => none
  else none

def fontSizeNumSearch (line : Chars) : Option Nat := searchGo fsNumTryAt line

/-- Same pattern as fsNumTryAt but returning the span, used by the
substitution clamping any matched font size to the literal forty. -/
def fsSubTryAt (s : Chars) : Option (Nat × Chars) :=
  if pyStartswith s (cs "font_size") then
    let r := s.drop 9
    let w1 := wsRunLen r
    match r.drop w1 with
    | '=' :: r2 =>
      let w2 := wsRunLen r2
      let r3 := r2.drop w2
      let d := digitRunLen r3
      if d = 0 then none else some (9 + w1 + 1 + w2 + d, cs "font_size=40")
    | _ => none
  else none

def subAllFontSize (line : Chars) : Chars := subAllG fsSubTryAt line

/-- Matcher for an attribute font-size assignment: a word, a dot, the
literal font_size, optional whitespace, equals, optional whitespace, digits.
The source only consumes the numeric group. -/
def attrFsTryAt (s : Chars) : Option Nat :=
  let w := wordRunLen s
  if w = 0 then none
  else
    let r := s.drop w
    if pyStartswith r (cs ".font_size") then
      let r1 := r.drop 10
      let w1 := wsRunLen r1
      match r1.drop w1 with
      | '=' :: r2 =>
        let w2 := wsRunLen r2
        let r3 := r2.drop w2
        let d := digitRunLen r3
        if d = 0 then none else some (charsToNat (r3.take d))
      | _ => none
    else none

def attrFontSizeSearch (line : Chars) : Option Nat := searchGo attrFsTryAt line

/-- Matcher for a text object declaration: a word, optional whitespace,
equals, optional whitespace, then a Text or MathTex constructor call. -/
def textDeclTryAt (s : Chars) : Option Chars :=
  let w := wordRunLen s
  if w = 0 then none
  else
    let r := s.drop w
    let w1 := wsRunLen r
    match r.drop w1 with
    | '=' :: r2 =>
      let w2 := wsRunLen r2
      let r3 := r2.drop w2
      if pyStartswith r3 (cs "Text(") || pyStartswith r3 (cs "MathTex(") then
        some (s.take w)
      else none
    | _ => none

def textDeclSearch (line : Chars) : Option Chars := searchGo textDeclTryAt line

def squote : Char := Char.ofNat 39

def isQuote (c : Char) : Bool := c = '"' || c = squote

/-- Quoted text content: a quote character of either kind, a nonempty run
of non-quote characters, then any quote character. -/
def tcQuoted (t : Chars) : Option Chars :=
  match t with
  | q :: u =>
    if isQuote q then
      let run := runLen (fun c => !(isQuote c)) u
      if run = 0 then none
      else
        match u.drop run with
        | q2 :: _ => if isQuote q2 then some (u.take run) else none
        | [] => none
    else none
  | [] => none

/-- After the constructor parenthesis, an optional raw-string marker
(greedy, with fallback) precedes the quoted content. -/
def tcAfterParen (s : Chars) : Option Chars :=
  match s with
  | 'r' :: t =>
    match tcQuoted t with
    | some g => some g
    | none => tcQuoted s
  | _ => tcQuoted s

def tcTryAt (s : Chars) : Option Chars :=
  if pyStartswith s (cs "Text(") then tcAfterParen (s.drop 5)
  else if pyStartswith s (cs "MathTex(") then tcAfterParen (s.drop 8)
  else none

def textContentSearch (line : Chars) : Option Chars := searchGo tcTryAt line

/-- Matcher for the timed-wait pattern: the literal self.wait(, a nonempty
run of digits and dots (the group), optional whitespace, a minus sign,
optional whitespace, then the literal current_time). -/
def waitTryAt (s : Chars) : Option Chars :=
  if pyStartswith s (cs "self.wait(") then
    let r := s.drop 10
    let a := runLen (fun c => c.isDigit || c = '.') r
    if a = 0 then none
    else
      let r1 := r.drop a
      let w1 := wsRunLen r1
      match r1.drop w1 with
      | '-' :: r2 =>
        let w2 := wsRunLen r2
        if pyStartswith (r2.drop w2) (cs "current_time)") then some (r.take a)
        else none
      | _ => none
  else none

def waitSearch (line : Chars) : Option Chars := searchGo waitTryAt line

def notNl (c : Char) : Bool := c != '\n'

/-- Matcher for a doubled single-line conditional: the literal if, required
whitespace (greedy), a lazy nonempty group up to a colon, optional
whitespace, a second if, required whitespace, a second lazy group up to a
colon.  Returns both groups. -/
def ifIfTryAt (s : Chars) : Option (Chars × Chars) :=
  if pyStartswith s (cs "if") then
    let r := s.drop 2
    let w1max := wsRunLen r
    if w1max = 0 then none
    else
      (descFrom1 w1max).findSome? (fun w1 =>
        let r1 := r.drop w1
        (ascTo r1.length).findSome? (fun len1 =>
          let g1 := r1.take len1
          if ¬ g1.all notNl then none
          else
            match r1.drop len1 with
            | ':' :: r2 =>
              let w2 := wsRunLen r2
              let r3 := r2.drop w2
              if pyStartswith r3 (cs "if") then
                let r4 := r3.drop 2
                let w3max := wsRunLen r4
                if w3max = 0 then none
                else
                  (descFrom1 w3max).findSome? (fun w3 =>
                    let r5 := r4.drop w3
                    (ascTo r5.length).findSome? (fun len2 =>
                      let g2 := r5.take len2
                      if ¬ g2.all notNl then none
                      else
                        match r5.drop len2 with
                        | ':' :: _ => some (g1, g2)
                        | _ => none))
              else none
            | _ => none))
  else none

def ifIfSearch (line : Chars) : Option (Chars × Chars) := searchGo ifIfTryAt line

/-- Matcher for the back-referenced duplicate-conditional substitution: as
ifIfTryAt but the second condition must repeat the first group verbatim;
the replacement is a single guard built from the group. -/
def ifIfBackTryAt (s : Chars) : Option (Nat × Chars) :=
  if pyStartswith s (cs "if") then
    let r := s.drop 2
    let w1max := wsRunLen r
    if w1max = 0 then none
    else
      (descFrom1 w1max).findSome? (fun w1 =>
        let r1 := r.drop w1
        (ascTo r1.length).findSome? (fun len1 =>
          let g1 := r1.take len1
          if ¬ g1.all notNl then none
          else
            match r1.drop len1 with
            | ':' :: r2 =>
              let w2 := wsRunLen r2
              let r3 := r2.drop w2
              if pyStartswith r3 (cs "if") then
                let r4 := r3.drop 2
                let w3max := wsRunLen r4
                if w3max = 0 then none
                else
                  (descFrom1 w3max).findSome? (fun w3 =>
                    let r5 := r4.drop w3
                    if pyStartswith r5 (g1 ++ [':']) then
                      some (2 + w1 + len1 + 1 + w2 + 2 + w3 + g1.length + 1,
                        cs "if " ++ g1 ++ cs ":")
                    else none)
              else none
            | _ => none))
  else none

def ifIfBackSub (line : Chars) : Chars := subAllG ifIfBackTryAt line

/-- Captures of the positioning-call pattern: a word, the literal
move_to text, an opening bracket, a nonempty numeric run, a comma, optional
whitespace, a second nonempty numeric run.  len is the span consumed. -/
structure MoveM where
  name : Chars
  xs : Chars
  ys : Chars
  len : Nat
deriving DecidableEq, Repr

def isNumCls (c : Char) : Bool := c.isDigit || c = '-' || c = '.'

def moveToTryAt (s : Chars) : Option MoveM :=
  let w := wordRunLen s
  if w = 0 then none
  else
    let r := s.drop w
    if pyStartswith r (cs ".move_to([") then
      let r1 := r.drop 10
      let a := runLen isNumCls r1
      if a = 0 then none
      else
        match r1.drop a with
        | ',' :: r2 =>
          let w2 := wsRunLen r2
          let r3 := r2.drop w2
          let b := runLen isNumCls r3
          if b = 0 then none
          else
            some { name := s.take w, xs := r1.take a, ys := r3.take b,
                   len := w + 10 + a + 1 + w2 + b }
        | _ => none
    else none

def moveToSearch (line : Chars) : Option MoveM := searchGo moveToTryAt line

def moveToSubAll (line repl : Chars) : Chars :=
  subAllG (fun s => (moveToTryAt s).map (fun m => (m.len, repl))) line

/-- Exception model: the only uncaught exception reachable in the embedded
code is ValueError from float() on a malformed numeric capture. -/
inductive PyErr
  | valueError
deriving DecidableEq, Repr

/-- Result of the external CPython compile() call, modelled as an oracle. -/
inductive CompileOutcome
  | ok
  | syntaxError
  | otherError
deriving DecidableEq, Repr

/-- Source: _fix_import_statements.  Splits a wildcard import concatenated
with a following import on the same line. -/
def importLineFix (line : Chars) : List Chars :=
  if pyIn (cs "from manim import *import") line then
    match pyFind line (cs "*") with
    | some star =>
      let afterStar := line.drop (star + 1)
      if pyIn (cs "import") afterStar then
        match pyFind afterStar (cs "import") with
        | some k => [line.take (star + 1), afterStar.drop k]
        | none => [line]
      else [line]
    | none => [line]
  else [line]

def fix_import_statements (code : Chars) : Chars :=
  joinNl (((splitNl code).map importLineFix).flatten)

def hasFloatHint (line : Chars) : Bool :=
  pyIn (cs ".0") line || pyIn (cs ".1") line || pyIn (cs ".2") line ||
  pyIn (cs ".3") line || pyIn (cs ".4") line || pyIn (cs ".5") line ||
  pyIn (cs ".6") line || pyIn (cs ".7") line || pyIn (cs ".8") line ||
  pyIn (cs ".9") line

/-- Source: _fix_modern_manim_api, branches after the set_font_size one:
deprecated constants, frame dimensions, float identity comparison, renamed
creation animation. -/
def apiLineRest (line0 : Chars) : Chars :=
  let line1 :=
    if pyIn (cs "DEFAULT_FONT_SIZE") line0 then
      replaceAll (dfsSubAll line0) (cs "DEFAULT_FONT_SIZE") (cs "24")
    else line0
  let line2 :=
    if pyIn (cs "FRAME_WIDTH") line1 then
      replaceAll (replaceAll (replaceAll line1 (cs "FRAME_WIDTH - 1") (cs "13"))
        (cs "FRAME_WIDTH - 2") (cs "12")) (cs "FRAME_WIDTH") (cs "14")
    else line1
  let line3 :=
    if pyIn (cs "FRAME_HEIGHT") line2 then replaceAll line2 (cs "FRAME_HEIGHT") (cs "8")
    else line2
  let line4 :=
    if pyIn (cs "is not None") line3 && hasFloatHint line3 then innSubAll line3
    else line3
  if pyIn (cs "ShowCreation(") line4 then replaceAll line4 (cs "ShowCreation(") (cs "Create(")
  else line4

/-- Source: _fix_modern_manim_api, per line.  A matched set_font_size call
is rewritten to an attribute assignment and the remaining branches are
skipped for that line. -/
def apiLine (line : Chars) : Chars :=
  if pyIn (cs ".set_font_size(") line then
    match setFontSizeSearch line with
    | some (name, expr) =>
      List.replicate (line.length - (lstripL line).length) ' ' ++
        name ++ cs ".font_size = " ++ expr
    | none => apiLineRest line
  else apiLineRest line

def fix_modern_manim_api (code : Chars) : Chars :=
  joinNl ((splitNl code).map apiLine)

/-- Source: _normalize_indentation, per line: blank lines become empty,
tabs are expanded, and the leading-whitespace width is rounded to the
nearest multiple of four. -/
def normLine (line : Chars) : Chars :=
  if (stripL line).isEmpty then []
  else
    let stripped := lstripL line
    if stripped.isEmpty then []
    else if pyIn (cs "\t") line then
      let e := expandTabs4 line
      let s2 := lstripL e
      List.replicate (((e.length - s2.length + 2) / 4) * 4) ' ' ++ s2
    else
      List.replicate (((line.length - stripped.length + 2) / 4) * 4) ' ' ++ stripped

def normalize_indentation (code : Chars) : Chars :=
  joinNl ((splitNl code).map normLine)

/-- The guarded two-line replacement emitted by _fix_timing_calculations,
with the original indentation width reproduced in spaces. -/
def timingEmit (line g : Chars) : List Chars :=
  let spacing := List.replicate (line.length - (lstripL line).length) ' '
  [spacing ++ cs "if " ++ g ++ cs " > current_time:",
   spacing ++ cs "    self.wait(" ++ g ++ cs " - current_time)"]

/-- Source: _fix_timing_calculations, second branch (final-wait form). -/
def timingLineSecond (line : Chars) : List Chars :=
  if pyIn (cs "self.wait(") line && pyIn (cs " - current_time)") line &&
      !(pyIn (cs "if ") line) then
    match waitSearch line with
    | some g => timingEmit line g
    | none => [line]
  else [line]

/-- Source: _fix_timing_calculations, first branch (mid-buffer wait). -/
def timingLine (line : Chars) : List Chars :=
  if pyIn (cs "self.wait(") line && pyIn (cs " - current_time") line then
    match waitSearch line with
    | some g => timingEmit line g
    | none => timingLineSecond line
  else timingLineSecond line

def fix_timing_calculations (code : Chars) : Chars :=
  joinNl (((splitNl code).map timingLine).flatten)

/-- Source: _fix_redundant_conditionals, single-line compound branch. -/
def compoundFix (line : Chars) : Chars :=
  if pyIn (cs "if ") line && pyCount line (cs "if ") > 1 then
    match ifIfSearch line with
    | some (g1, g2) => if stripL g1 == stripL g2 then ifIfBackSub line else line
    | none => line
  else line

/-- Source: _fix_redundant_conditionals, main scan.  An adjacent pair whose
stripped text is an identical if-guard keeps the first line and skips the
second, advancing two lines. -/
def fixRCLines : List Chars → List Chars
  | [] => []
  | [line] => [compoundFix line]
  | line :: next :: rest =>
    if pyStartswith (stripL line) (cs "if ") then
      if stripL line == stripL next && pyStartswith (stripL line) (cs "if ") &&
          pyStartswith (stripL next) (cs "if ") then
        line :: fixRCLines rest
      else if pyEndswith (stripL line) (cs ":") && stripL next == stripL line then
        line :: fixRCLines rest
      else compoundFix line :: fixRCLines (next :: rest)
    else compoundFix line :: fixRCLines (next :: rest)

def fix_redundant_conditionals (code : Chars) : Chars :=
  joinNl (fixRCLines (splitNl code))

/-- Registry entry of _fix_text_overflow_and_sizing for one detected text
object. -/
structure TObj where
  hasMaxWidth : Bool
  textLength : Nat
  fontSize : Nat
  yPos : Option Rat
deriving DecidableEq, Repr

abbrev Registry := List (Chars × TObj)

def regFind (reg : Registry) (k : Chars) : Option TObj :=
  (reg.find? (fun p => p.1 == k)).map Prod.snd

def regSet (reg : Registry) (k : Chars) (v : TObj) : Registry :=
  if (reg.find? (fun p => p.1 == k)).isSome then
    reg.map (fun p => if p.1 == k then (k, v) else p)
  else reg ++ [(k, v)]

def regSetMW (reg : Registry) (k : Chars) : Registry :=
  reg.map (fun p => if p.1 == k then (p.1, { p.2 with hasMaxWidth := true }) else p)

def regSetY (reg : Registry) (k : Chars) (y : Rat) : Registry :=
  reg.map (fun p => if p.1 == k then (p.1, { p.2 with yPos := some y }) else p)

/-- Width tier table of the first scan: longer text or larger font selects
a narrower width. -/
def tierWidth (tlen fsize : Nat) : Nat :=
  if tlen > 60 || fsize > 32 then 9
  else if tlen > 40 || fsize > 28 then 10
  else if tlen > 20 then 11
  else 12

/-- Source: _fix_text_overflow_and_sizing, first pass: clamp font sizes,
detect Text and MathTex declarations, and insert a missing width
constraint, looking ahead ten lines of the original buffer. -/
def pass1 : List Chars → Registry → List Chars × Registry
  | [], reg => ([], reg)
  | line :: rest, reg =>
    let spacing := List.replicate (line.length - (lstripL line).length) ' '
    let line1 :=
      if pyIn (cs "font_size=") line then
        match fontSizeNumSearch line with
        | some n => if n > 40 then subAllFontSize line else line
        | none => line
      else line
    let line2 :=
      match attrFontSizeSearch line1 with
      | some n => if n > 40 then subAllFontSize line1 else line1
      | none => line1
    match textDeclSearch line2 with
    | none =>
      let pr := pass1 rest reg
      (line2 :: pr.1, pr.2)
    | some name =>
      let tlen :=
        match textContentSearch line2 with
        | some c => c.length
        | none => 0
      let fsize :=
        match fontSizeNumSearch line2 with
        | some n => n
        | none => 24
      let reg1 := regSet reg name
        { hasMaxWidth := false, textLength := tlen, fontSize := fsize, yPos := none }
      let hasMW := (rest.take 10).any (fun l2 => pyIn (name ++ cs ".set_max_width") l2)
      if hasMW then
        let pr := pass1 rest (regSetMW reg1 name)
        (line2 :: pr.1, pr.2)
      else if tlen > 0 then
        let ins := spacing ++ name ++ cs ".set_max_width(" ++
          natToChars (tierWidth tlen fsize) ++ cs ")"
        let pr := pass1 rest (regSetMW reg1 name)
        (line2 :: ins :: pr.1, pr.2)
      else
        let pr := pass1 rest reg1
        (line2 :: pr.1, pr.2)

def clampX (x : Rat) : Rat := if x > 6 then 6 else if x < -6 then -6 else x

def clampY (y : Rat) : Rat :=
  if y > 7 / 2 then 7 / 2 else if y < -(7 / 2) then -(7 / 2) else y

/-- Second-pass de-overlap: the first ledger entry closer than the minimum
spacing displaces the candidate by exactly one spacing unit away from it,
re-clamped to the viewport. -/
def ledgerAdjust (ledger : List Rat) (y : Rat) : Rat :=
  match ledger.find? (fun e => decide (|y - e| < 4 / 5)) with
  | none => y
  | some e => clampY (if y > e then e + 4 / 5 else e - 4 / 5)

/-- Source: _fix_text_overflow_and_sizing, second pass, one line: parse the
coordinates of a positioning match (float() may raise), clamp them, and
rewrite the line only when the name is in the registry. -/
def pass2Step (reg : Registry) (ledger : List Rat) (line : Chars) :
    Except PyErr (Chars × List Rat × Registry) :=
  match moveToSearch line with
  | none => .ok (line, ledger, reg)
  | some m =>
    match pyFloat m.xs with
    | none => .error .valueError
    | some x0 =>
      match pyFloat m.ys with
      | none => .error .valueError
      | some y0 =>
        let x := clampX x0
        let y := clampY y0
        match regFind reg m.name with
        | none => .ok (line, ledger, reg)
        | some _ =>
          let adj := ledgerAdjust ledger y
          let repl := m.name ++ cs ".move_to([" ++ fmt2 x ++ cs ", " ++ fmt2 adj
          .ok (moveToSubAll line repl, ledger ++ [adj], regSetY reg m.name adj)

def pass2 : Registry → List Rat → List Chars → Except PyErr (List Chars)
  | _, _, [] => .ok []
  | reg, led, line :: rest =>
    match pass2Step reg led line with
    | .error e => .error e
    | .ok (l2, led2, reg2) =>
      match pass2 reg2 led2 rest with
      | .error e => .error e
      | .ok rs => .ok (l2 :: rs)

def fix_text_overflow_and_sizing (code : Chars) : Except PyErr Chars :=
  let pr := pass1 (splitNl code) []
  match pass2 pr.2 [] pr.1 with
  | .error e => .error e
  | .ok ls => .ok (joinNl ls)

/-- The narrow definition-line indentation heuristic applied inside the
SyntaxError handler of _validate_and_fix_syntax, for one line given the
original previous line. -/
def defClassFix (prev : Option Chars) (l : Chars) : Chars :=
  if pyStartswith (stripL l) (cs "def ") || pyStartswith (stripL l) (cs "class ") then
    if !(pyStartswith l (cs "def ") || pyStartswith l (cs "class ")) then
      match prev with
      | some p => if pyEndswith (stripL p) (cs ":") then cs "    " ++ stripL l else stripL l
      | none => stripL l
    else l
  else l

def fixDefLinesGo : Option Chars → List Chars → List Chars
  | _, [] => []
  | prev, l :: rest => defClassFix prev l :: fixDefLinesGo (some l) rest

def fixDefLines (lines : List Chars) : List Chars := fixDefLinesGo none lines

/-- The terminal validation of _validate_and_fix_syntax: on a successful
parse return the buffer; on a SyntaxError apply the definition-line
heuristic once without re-validating; on any other exception return the
buffer as received. -/
def syntaxValidateCore (O : Chars → CompileOutcome) (code : Chars) : Chars :=
  match O code with
  | .ok => code
  | .syntaxError => joinNl (fixDefLines (splitNl code))
  | .otherError => code

/-- Source: _validate_and_fix_syntax: timing repair, conditional
deduplication, overflow and sizing repair, a second API pass, then the
compile check. -/
def validate_and_fix_syntax_stage (O : Chars → CompileOutcome) (code : Chars) :
    Except PyErr Chars :=
  let c1 := fix_timing_calculations code
  let c2 := fix_redundant_conditionals c1
  match fix_text_overflow_and_sizing c2 with
  | .error e => .error e
  | .ok c3 => .ok (syntaxValidateCore O (fix_modern_manim_api c3))

/-- The preprocessing prefix of _clean_code: strip, markdown fence removal,
strip again, and the baseline-import guarantee. -/
def preprocessL (raw : Chars) : Chars :=
  let c0 := stripL raw
  let c1 :=
    if pyStartswith c0 (cs "```python") then c0.drop 9
    else if pyStartswith c0 (cs "```") then c0.drop 3
    else c0
  let c2 := if pyEndswith c1 (cs "```") then c1.take (c1.length - 3) else c1
  let c3 := stripL c2
  if !(pyIn (cs "from manim import") c3) && !(pyIn (cs "import manim") c3) then
    cs "from manim import *\n\n" ++ c3
  else c3

/-- Source: _clean_code, the full pipeline. -/
def clean_code (O : Chars → CompileOutcome) (raw : Chars) : Except PyErr Chars :=
  validate_and_fix_syntax_stage O
    (normalize_indentation (fix_modern_manim_api (fix_import_statements (preprocessL raw))))

/-- The stage composition of _clean_code written out in the order the
source executes it. -/
def actualOrderPipelineL (O : Chars → CompileOutcome) (raw : Chars) : Except PyErr Chars :=
  let s1 := preprocessL raw
  let s2 := fix_import_statements s1
  let s3 := fix_modern_manim_api s2
  let s4 := normalize_indentation s3
  let s5 := fix_timing_calculations s4
  let s6 := fix_redundant_conditionals s5
  match fix_text_overflow_and_sizing s6 with
  | .error e => .error e
  | .ok s7 => .ok (syntaxValidateCore O (fix_modern_manim_api s7))

/-- Modelled from the spec: the stage order the specification claims in its
section 2 list, where the IndentationNormalizer is stage 7, after the
LayoutEnforcer (5) and the second APIMigrator pass (6) and before only the
SyntaxValidator (8).  Built from the same embedded stages for comparison
with clean_code. -/
def specOrderedPipelineL (O : Chars → CompileOutcome) (raw : Chars) : Except PyErr Chars :=
  let s1 := preprocessL raw
  let s2 := fix_import_statements s1
  let s3 := fix_modern_manim_api s2
  let s4 := fix_timing_calculations s3
  let s5 := fix_redundant_conditionals s4
  match fix_text_overflow_and_sizing s5 with
  | .error e => .error e
  | .ok s6 => .ok (syntaxValidateCore O (normalize_indentation (fix_modern_manim_api s6)))

/-- Two consecutive lines that are the same if-guard, the property the
adjacent-duplicate-guard claims quantify over. -/
def hasAdjacentDupIf : List Chars → Bool
  | l1 :: l2 :: rest =>
    (l1 == l2 && pyStartswith (stripL l1) (cs "if ")) || hasAdjacentDupIf (l2 :: rest)
  | _ => false

instance {ε α : Type} [DecidableEq ε] [DecidableEq α] : DecidableEq (Except ε α) := fun a b =>
  match a, b with
  | .ok x, .ok y =>
    if h : x = y then .isTrue (by rw [h]) else .isFalse (fun hc => h (Except.ok.inj hc))
  | .error x, .error y =>
    if h : x = y then .isTrue (by rw [h]) else .isFalse (fun hc => h (Except.error.inj hc))
  | .ok _, .error _ => .isFalse (fun hc => Except.noConfusion hc)
  | .error _, .ok _ => .isFalse (fun hc => Except.noConfusion hc)

theorem splitNl_ne_nil (s : Chars) : splitNl s ≠ [] := by
  cases s with
  | nil => simp [splitNl]
  | cons c rest =>
    simp only [splitNl]
    by_cases hc : c = '\n'
    · simp [hc]
    · simp only [hc, if_false]
      cases splitNl rest <;> simp

/-- Splitting on newlines and joining with newlines is the identity, the
round trip every line-oriented stage of the pipeline performs. -/
theorem joinNl_splitNl (s : Chars) : joinNl (splitNl s) = s := by
  induction s with
  | nil => rfl
  | cons c rest ih =>
    by_cases hc : c = '\n'
    · subst hc
      simp only [splitNl, if_pos rfl]
      cases h : splitNl rest with
      | nil => exact absurd h (splitNl_ne_nil rest)
      | cons a t =>
        rw [h] at ih
        simpa [joinNl] using ih
    · simp only [splitNl, hc, if_false]
      cases h : splitNl rest with
      | nil => exact absurd h (splitNl_ne_nil rest)
      | cons a t =>
        rw [h] at ih
        cases t with
        | nil => simpa [joinNl] using ih
        | cons b t2 =>
          simp only [joinNl] at ih ⊢
          simp [ih]

/-- A line containing at most one if-keyword occurrence is untouched by the
single-line compound-conditional branch of the deduplication stage. -/
theorem compoundFix_id (l : Chars) (h : pyCount l (cs "if ") ≤ 1) : compoundFix l = l := by
  have hf : decide (pyCount l (cs "if ") > 1) = false := decide_eq_false (by omega)
  simp [compoundFix, hf]

/-- C1: the repair pipeline is not idempotent.  On the buffer containing
one unguarded timed wait, the first application produces a guarded wait
indented four spaces; the second application re-wraps that wait (the timing
stage matches its own output), the deduplication stage then drops the
duplicated guard, and the wait line ends up indented eight spaces, so
applying the pipeline twice differs from applying it once. -/
theorem c1_pipeline_not_idempotent :
    clean_code (fun _ => CompileOutcome.ok) (cs "self.wait(5.0 - current_time)") =
      Except.ok (cs "from manim import *\n\nif 5.0 > current_time:\n    self.wait(5.0 - current_time)") ∧
    clean_code (fun _ => CompileOutcome.ok)
      (cs "from manim import *\n\nif 5.0 > current_time:\n    self.wait(5.0 - current_time)") =
      Except.ok (cs "from manim import *\n\nif 5.0 > current_time:\n        self.wait(5.0 - current_time)") ∧
    cs "from manim import *\n\nif 5.0 > current_time:\n    self.wait(5.0 - current_time)" ≠
      cs "from manim import *\n\nif 5.0 > current_time:\n        self.wait(5.0 - current_time)" :=
  ⟨by decide, by decide, by decide⟩

/-- C2: a declared coordinate outside the safe viewport survives the
pipeline.  The positioning call of a Circle (a name never registered as a
Text or MathTex declaration) passes through byte for byte even though its
x-coordinate 10 exceeds the bound the stage itself computes (clampX maps it
to 6 and clampY maps 5 to 3.5, but the rewritten line is only emitted for
registered text objects). -/
theorem c2_unregistered_coordinate_survives :
    clean_code (fun _ => CompileOutcome.ok) (cs "c = Circle()\nc.move_to([10, 5, 0])") =
      Except.ok (cs "from manim import *\n\nc = Circle()\nc.move_to([10, 5, 0])") ∧
    pyIn (cs "c.move_to([10, 5, 0])")
      (cs "from manim import *\n\nc = Circle()\nc.move_to([10, 5, 0])") = true ∧
    clampX 10 = 6 ∧ clampY 5 = 7 / 2 :=
  ⟨by decide, by decide, by norm_num [clampX], by norm_num [clampY]⟩

/-- C3: the terminal syntax-validation step returns a parsing buffer or its
input unchanged.  With the external parser modelled as an oracle: on a
successful parse the buffer is returned as is; on a syntax error, when the
narrow definition-line indentation heuristic does not change any line, the
buffer is returned exactly as received; on any other exception the buffer
is returned exactly as received.  The function is total, so no exception
escapes. -/
theorem c3_syntax_validator_passthrough (O : Chars → CompileOutcome) (code : Chars) :
    (O code = CompileOutcome.ok → syntaxValidateCore O code = code) ∧
    (O code = CompileOutcome.syntaxError → fixDefLines (splitNl code) = splitNl code →
      syntaxValidateCore O code = code) ∧
    (O code = CompileOutcome.otherError → syntaxValidateCore O code = code) := by
  refine ⟨fun h => ?_, fun h hfix => ?_, fun h => ?_⟩
  · simp [syntaxValidateCore, h]
  · simp [syntaxValidateCore, h, hfix, joinNl_splitNl]
  · simp [syntaxValidateCore, h]

theorem c3_syntax_validator_passthrough_witness :
    syntaxValidateCore (fun _ => CompileOutcome.syntaxError) (cs "x = (") = cs "x = (" :=
  (c3_syntax_validator_passthrough (fun _ => CompileOutcome.syntaxError) (cs "x = (")).2.1
    rfl (by decide)

/-- C4: the pipeline is not total.  On a positioning call whose coordinate
capture is not a valid float literal, the overflow stage calls float() on
the capture and the resulting ValueError propagates out of the pipeline
instead of the line being passed through unchanged. -/
theorem c4_pipeline_raises_value_error :
    clean_code (fun _ => CompileOutcome.ok) (cs "a.move_to([1.2.3, 4])") =
      Except.error PyErr.valueError := by decide

/-- C5 counterexample: two consecutive identical if-guard lines survive in
the pipeline output.  A run of three identical guards is collapsed pairwise
to two adjacent identical guards, which remain adjacent in the final
buffer. -/
theorem c5_adjacent_duplicate_guards_survive :
    clean_code (fun _ => CompileOutcome.syntaxError) (cs "if x > 0:\nif x > 0:\nif x > 0:") =
      Except.ok (cs "from manim import *\n\nif x > 0:\nif x > 0:") ∧
    hasAdjacentDupIf (splitNl (cs "from manim import *\n\nif x > 0:\nif x > 0:")) = true :=
  ⟨by decide, by decide⟩

/-- C5 amended: the deduplication stage collapses an isolated adjacent
duplicated guard pair into a single guard, but a run of three identical
guards is reduced pairwise in one pass, leaving two adjacent identical
guards, so adjacent duplicates can survive for runs of three or more. -/
theorem c5_pairwise_dedup_only (l : Chars)
    (h1 : pyStartswith (stripL l) (cs "if ") = true)
    (h2 : pyCount l (cs "if ") ≤ 1) :
    fixRCLines [l, l] = [l] ∧ fixRCLines [l, l, l] = [l, l] := by
  constructor
  · simp [fixRCLines, h1]
  · simp [fixRCLines, h1, compoundFix_id l h2]

theorem c5_pairwise_dedup_only_witness :
    fixRCLines [cs "if x > 0:", cs "if x > 0:"] = [cs "if x > 0:"] ∧
    fixRCLines [cs "if x > 0:", cs "if x > 0:", cs "if x > 0:"] =
      [cs "if x > 0:", cs "if x > 0:"] :=
  c5_pairwise_dedup_only (cs "if x > 0:") (by decide) (by decide)

/-- C6 counterexample: for the buffer containing the deprecated expression
1.2 times DEFAULT_FONT_SIZE, the pipeline output does not contain the
arithmetically resolved product 28.8 anywhere. -/
theorem c6_no_arithmetic_product :
    clean_code (fun _ => CompileOutcome.ok) (cs "t.font_size = 1.2 * DEFAULT_FONT_SIZE") =
      Except.ok (cs "from manim import *\n\nt.font_size = 1.2 * 24") ∧
    pyIn (cs "28.8") (cs "from manim import *\n\nt.font_size = 1.2 * 24") = false ∧
    pyIn (cs "1.2 * DEFAULT_FONT_SIZE") (cs "t.font_size = 1.2 * DEFAULT_FONT_SIZE") = true :=
  ⟨by decide, by decide, by decide⟩

/-- C6 amended: the deprecated constant is substituted, not resolved: the
output contains the expression 1.2 times the baseline literal 24, with the
multiplier preserved, and no occurrence of DEFAULT_FONT_SIZE remains. -/
theorem c6_baseline_substitution :
    clean_code (fun _ => CompileOutcome.ok) (cs "t.font_size = 1.2 * DEFAULT_FONT_SIZE") =
      Except.ok (cs "from manim import *\n\nt.font_size = 1.2 * 24") ∧
    pyIn (cs "1.2 * 24") (cs "from manim import *\n\nt.font_size = 1.2 * 24") = true ∧
    pyIn (cs "DEFAULT_FONT_SIZE") (cs "from manim import *\n\nt.font_size = 1.2 * 24") = false :=
  ⟨by decide, by decide, by decide⟩

/-- C7: a numeric font-size literal above the configured maximum survives
the pipeline.  The constructor clamp is gated on the exact substring
font_size followed directly by an equals sign, while the written form with
spaces around the equals sign escapes the gate, so the value 50 remains in
the output. -/
theorem c7_spaced_font_size_survives :
    clean_code (fun _ => CompileOutcome.ok) (cs "t = Text(\"hi\", font_size = 50)") =
      Except.ok (cs "from manim import *\n\nt = Text(\"hi\", font_size = 50)\nt.set_max_width(9)") ∧
    pyIn (cs "font_size = 50")
      (cs "from manim import *\n\nt = Text(\"hi\", font_size = 50)\nt.set_max_width(9)") = true :=
  ⟨by decide, by decide⟩

/-- C8 counterexample: two adjacent guard lines that differ as strings (the
second carries extra indentation) are nevertheless merged by the
deduplication stage, refuting the character-for-character equality
condition. -/
theorem c8_differing_lines_merged :
    cs "if x > 0:" ≠ cs "    if x > 0:" ∧
    fixRCLines [cs "if x > 0:", cs "    if x > 0:"] = [cs "if x > 0:"] :=
  ⟨by decide, by decide⟩

/-- C8 amended: the deduplication stage collapses an adjacent pair of
if-guard lines exactly when the two lines are identical after stripping
leading and trailing whitespace, always keeping the first occurrence with
its original indentation; two adjacent guards whose stripped text differs
are never merged. -/
theorem c8_stripped_equality_dedup :
    (∀ l1 l2 : Chars, pyStartswith (stripL l1) (cs "if ") = true → stripL l1 = stripL l2 →
      fixRCLines [l1, l2] = [l1]) ∧
    (∀ l1 l2 : Chars, pyStartswith (stripL l1) (cs "if ") = true → stripL l1 ≠ stripL l2 →
      pyCount l1 (cs "if ") ≤ 1 → pyCount l2 (cs "if ") ≤ 1 →
      fixRCLines [l1, l2] = [l1, l2]) := by
  constructor
  · intro l1 l2 h1 h2
    have h1' : pyStartswith (stripL l2) (cs "if ") = true := h2 ▸ h1
    simp [fixRCLines, h1, h1', h2]
  · intro l1 l2 h1 h2 hc1 hc2
    have hne : (stripL l1 == stripL l2) = false := beq_eq_false_iff_ne.mpr h2
    have hne2 : (stripL l2 == stripL l1) = false := beq_eq_false_iff_ne.mpr (Ne.symm h2)
    simp [fixRCLines, h1, hne, hne2, compoundFix_id l1 hc1, compoundFix_id l2 hc2]

theorem c8_stripped_equality_dedup_witness :
    fixRCLines [cs "if y > 1:", cs "  if y > 1:  "] = [cs "if y > 1:"] ∧
    fixRCLines [cs "if y > 1:", cs "if y > 2:"] = [cs "if y > 1:", cs "if y > 2:"] :=
  ⟨c8_stripped_equality_dedup.1 _ _ (by decide) (by decide),
   c8_stripped_equality_dedup.2 _ _ (by decide) (by decide) (by decide) (by decide)⟩

/-- C9 counterexample: the stage order the specification lists is
observably different from the order the source executes.  On a wait line
whose minus sign is preceded by a tab, the source pipeline (indentation
normalization before the timing stage) expands the tab first and the
timing stage then guards the wait, while the specified order (indentation
normalization after the layout and second API stages) leaves the tab in
place during the timing stage and the wait is never guarded. -/
theorem c9_spec_order_observably_differs :
    specOrderedPipelineL (fun _ => CompileOutcome.ok) (cs "self.wait(5.0\t- current_time)") ≠
      clean_code (fun _ => CompileOutcome.ok) (cs "self.wait(5.0\t- current_time)") := by decide

/-- C9 amended: the pipeline executes its stages strictly in the source
order: preprocessing, import normalization, a first API migration pass,
indentation normalization, timing repair, conditional deduplication,
layout enforcement, a second API migration pass, and terminal syntax
validation; indentation normalization therefore runs before the timing,
deduplication and layout stages, and lines injected by those stages are
not subsequently indentation-normalized. -/
theorem c9_actual_stage_order (O : Chars → CompileOutcome) (raw : Chars) :
    clean_code O raw = actualOrderPipelineL O raw := by
  cases h : fix_text_overflow_and_sizing (fix_redundant_conditionals (fix_timing_calculations
      (normalize_indentation (fix_modern_manim_api (fix_import_statements (preprocessL raw)))))) with
  | error e =>
    simp only [clean_code, actualOrderPipelineL, validate_and_fix_syntax_stage, h]
  | ok c3 =>
    simp only [clean_code, actualOrderPipelineL, validate_and_fix_syntax_stage, h]

/-- C10: the coordinate-rewriting scan of the layout stage rewrites a
positioning line only when its object name was registered as a Text or
MathTex declaration by the first scan: for any registry not containing the
matched name, any ledger, and any line whose positioning match carries
parseable coordinates, the per-line step returns the line byte for byte
unchanged with the ledger and registry untouched, regardless of whether
the coordinates lie inside the safe viewport. -/
theorem c10_unregistered_moveto_passthrough (reg : Registry) (ledger : List Rat)
    (line : Chars) (m : MoveM)
    (hm : moveToSearch line = some m)
    (hx : (pyFloat m.xs).isSome = true)
    (hy : (pyFloat m.ys).isSome = true)
    (hreg : regFind reg m.name = none) :
    pass2Step reg ledger line = Except.ok (line, ledger, reg) := by
  cases hpx : pyFloat m.xs with
  | none => rw [hpx] at hx; simp at hx
  | some x0 =>
    cases hpy : pyFloat m.ys with
    | none => rw [hpy] at hy; simp at hy
    | some y0 => simp [pass2Step, hm, hpx, hpy, hreg]

theorem c10_unregistered_moveto_passthrough_witness :
    pass2Step [] [] (cs "c.move_to([10, 5, 0])") =
      Except.ok (cs "c.move_to([10, 5, 0])", [], []) :=
  c10_unregistered_moveto_passthrough [] [] _
    { name := cs "c", xs := cs "10", ys := cs "5", len := 16 }
    (by decide) (by decide) (by decide) rfl

end Datathon
